import Mathlib

/-!
Shallow embedding of `src/mcp-server/src/daemon.rs` (the symposium message-bus
daemon) and proofs about it.

The daemon file has three operations:
- `handle_client`: per-session task, a `select!` loop with an inbound activity
  (read a line, trim it, broadcast it when nonempty) and an outbound activity
  (receive a broadcast, write it plus a newline, flush).
- `run_message_bus_with_idle_timeout`: the governing loop; owns the broadcast
  channel, the session table and the idle clock, multiplexes accept events and
  a 5-second idle-check tick, and aborts remaining session tasks on exit.
- `run_daemon_with_idle_timeout`: claims the rendezvous socket by an exclusive
  bind, runs the bus loop, and removes the socket file afterwards.
- `run_client`: connects to the daemon, optionally auto-starting one with a
  bounded (20 attempts x 100 ms) retry loop.

Async effects (reads, channel operations, timer ticks, connection attempts)
are modelled as explicit events fed to step functions; machine state that the
Rust code mutates in place is threaded explicitly.
-/

namespace Daemon

/-! ### Rust `str::trim`

`handle_client` computes `line.trim().to_string()`.  Rust's `str::trim`
removes leading and trailing characters with the Unicode `White_Space`
property (`char::is_whitespace`). -/

/-- Rust `char::is_whitespace`: the Unicode `White_Space` code points. -/
def isRustWhitespace (c : Char) : Bool :=
  let n := c.toNat
  (0x9 ≤ n && n ≤ 0xD) || n = 0x20 || n = 0x85 || n = 0xA0 || n = 0x1680 ||
  (0x2000 ≤ n && n ≤ 0x200A) || n = 0x2028 || n = 0x2029 || n = 0x202F ||
  n = 0x205F || n = 0x3000

/-- Rust `str::trim` on the character list: drop whitespace from the front,
then from the back. -/
def rustTrimList (l : List Char) : List Char :=
  ((l.dropWhile isRustWhitespace).reverse.dropWhile isRustWhitespace).reverse

/-- Rust `str::trim`, lifted to `String`. -/
def rustTrim (s : String) : String :=
  ⟨rustTrimList s.toList⟩

/-! ### `handle_client`

One `select!` arm fires per loop iteration.  The inbound arm consumes the
result of `reader.read_line`, the outbound arm consumes the result of
`rx.recv()` together with the outcomes of the subsequent `write_all` and
`flush`.  Each arm either continues the loop or breaks (terminating the
session task). -/

/-- Result of `reader.read_line(&mut line)`: `Ok(0)` (end of stream),
`Ok(n)` with the line read, or `Err`. -/
inductive ReadResult where
  | eof
  | line (l : String)
  | ioErr
deriving DecidableEq

/-- Result of `rx.recv()` on the broadcast receiver. -/
inductive RecvResult where
  | msg (m : String)
  | closed
  | lagged
deriving DecidableEq

/-- Outcome of a `write_all` or `flush` call on the session's writer. -/
inductive WriteResult where
  | ok
  | werr
deriving DecidableEq

/-- Externally visible effect of one `handle_client` loop iteration. -/
inductive ClientAction where
  | publishMsg (m : String)
  | writeOut (m : String)
  | noAction
deriving DecidableEq

/-- Whether the `handle_client` loop continues or breaks. -/
inductive LoopCtl where
  | cont
  | stop
deriving DecidableEq

/-- Inbound arm of `handle_client`: `Ok(0)` breaks, `Err` breaks, `Ok(n)`
trims the line and broadcasts it when the trimmed message is nonempty. -/
def handle_client_inbound : ReadResult → ClientAction × LoopCtl
  | .eof => (.noAction, .stop)
  | .ioErr => (.noAction, .stop)
  | .line l =>
      let message := rustTrim l
      (if message = "" then .noAction else .publishMsg message, .cont)

/-- Outbound arm of `handle_client`: a received message is written with a
trailing newline and flushed (a failure of either breaks); `Closed` breaks;
`Lagged` is skipped. -/
def handle_client_outbound : RecvResult → WriteResult → WriteResult → ClientAction × LoopCtl
  | .closed, _, _ => (.noAction, .stop)
  | .lagged, _, _ => (.noAction, .cont)
  | .msg m, w, f =>
      (.writeOut (m ++ "\n"),
       if w = .werr then .stop else if f = .werr then .stop else .cont)

/-! ### `run_message_bus_with_idle_timeout`

The governing loop.  Its local mutable state is the session table `clients`
(a map from client id to join handle — here: the id paired with whether the
task has finished), the id counter `next_client_id`, and the idle clock
`last_activity`.  It also owns the broadcast channel: `tx` plus the loop's
own receiver `_rx`, which stays alive for the whole body of the function, and
one receiver per spawned session (`tx.subscribe()` at accept, dropped when
the session task ends).  Instants are modelled as `Nat` seconds and
`last_activity.elapsed()` at time `now` as `now - last_activity`.

Each `select!` arm of the loop is one event; the results of a session's
`tx.send` are folded into the same transition system as `publish` events so
that reachability covers every interleaving while the loop is live. -/

/-- Configuration of `run_message_bus_with_idle_timeout`: the function's only
numeric parameter is `idle_timeout_secs` (the listener and the optional ready
barrier carry no timing data). -/
structure BusConfig where
  idleTimeoutSecs : Nat
deriving DecidableEq

/-- Capacity of `broadcast::channel::<String>(1000)`. -/
def hubCapacity : Nat := 1000

/-- Tick period of the idle-check timer: the loop builds
`interval(Duration::from_secs(5))` from a literal, whatever the
configuration says. -/
def busTickPeriodSecs (_cfg : BusConfig) : Nat := 5

/-- State of the governing loop.  `clients` is the session table (id, task
finished?); `subs` the per-session broadcast receivers with their pending
queues; `loopRxAlive` whether the loop's own `_rx` receiver is alive. -/
structure BusState where
  clients : List (Nat × Bool)
  subs : List (Nat × List String)
  nextClientId : Nat
  lastActivity : Nat
  loopRxAlive : Bool
deriving DecidableEq

/-- State of the loop right after `broadcast::channel` and the initial
`last_activity = Instant::now()`: empty table, id counter 0, `_rx` alive. -/
def initBus (startTime : Nat) : BusState :=
  { clients := [], subs := [], nextClientId := 0,
    lastActivity := startTime, loopRxAlive := true }

/-- Number of live receivers of the broadcast channel: one per subscribed
session plus the loop's `_rx` while it is alive.  `tx.send` fails exactly
when this is zero. -/
def receiverCount (s : BusState) : Nat :=
  s.subs.length + (if s.loopRxAlive then 1 else 0)

/-- Size of the session table. -/
def sessionCount (s : BusState) : Nat := s.clients.length

/-- The `clients.retain(...)` sweep: keep the sessions whose task has not
finished. -/
def pruneClients (cs : List (Nat × Bool)) : List (Nat × Bool) :=
  cs.filter (fun c => !c.2)

/-- Delivery of one broadcast message into one subscriber's pending queue:
when the subscriber is `hubCapacity` behind, its oldest pending message is
dropped to make room. -/
def pushMsg (q : List String) (m : String) : List String :=
  (if hubCapacity ≤ q.length then q.drop (q.length + 1 - hubCapacity) else q) ++ [m]

/-- Pending queue of session `sid`, when subscribed. -/
def queueOf (s : BusState) (sid : Nat) : Option (List String) :=
  (s.subs.find? (fun p => p.1 == sid)).map (fun p => p.2)

/-- One event of the daemon while the governing loop runs: the two `select!`
arms (`accept`, with failures as `acceptErr`, and the idle `tick`, carrying
the current instant), the completion of a session task, and a session's
inbound `tx.send`. -/
inductive BusEvent where
  | accept (now : Nat)
  | acceptErr
  | tick (now : Nat)
  | finishTask (sid : Nat)
  | publish (sid : Nat) (m : String)
deriving DecidableEq

/-- Result of one transition: the new state, whether the loop keeps running
(`false` only for the idle-timeout `break`), and whether a `tx.send` executed
during the event returned an error. -/
structure StepOut where
  state : BusState
  running : Bool
  sendErr : Bool
deriving DecidableEq

/-- Transition function of the daemon, one `select!` arm (or session-side
event) at a time, translated from the body of the loop:
accept allocates the next id, sets `last_activity = Instant::now()`, spawns
the handler subscribed via `tx.subscribe()` and records it; the tick prunes
finished tasks, then either breaks (table empty and idle duration at least
the timeout), idles on, or resets the clock; a finishing task leaves the
table entry (until the next prune) but drops its receiver; a publish from a
live session delivers to every subscriber unless the channel has no
receivers, which is the `Err` branch of `tx.send`. -/
def busStep (cfg : BusConfig) (s : BusState) (e : BusEvent) : StepOut :=
  match e with
  | .accept now =>
      let cid := s.nextClientId
      { state := { s with
          clients := s.clients ++ [(cid, false)],
          subs := s.subs ++ [(cid, [])],
          nextClientId := cid + 1,
          lastActivity := now },
        running := true, sendErr := false }
  | .acceptErr => { state := s, running := true, sendErr := false }
  | .tick now =>
      let cs := pruneClients s.clients
      if cs.isEmpty then
        if cfg.idleTimeoutSecs ≤ now - s.lastActivity then
          { state := { s with clients := cs }, running := false, sendErr := false }
        else
          { state := { s with clients := cs }, running := true, sendErr := false }
      else
        { state := { s with clients := cs, lastActivity := now },
          running := true, sendErr := false }
  | .finishTask sid =>
      { state := { s with
          clients := s.clients.map (fun c => if c.1 = sid then (c.1, true) else c),
          subs := s.subs.filter (fun p => p.1 != sid) },
        running := true, sendErr := false }
  | .publish sid m =>
      if s.subs.any (fun p => p.1 == sid) then
        if receiverCount s = 0 then
          { state := s, running := true, sendErr := true }
        else
          { state := { s with subs := s.subs.map (fun p => (p.1, pushMsg p.2 m)) },
            running := true, sendErr := false }
      else
        { state := s, running := true, sendErr := false }

/-- States of the daemon reachable while the governing loop is live: the
initial state (at any start instant), closed under transitions that keep the
loop running. -/
inductive Reachable (cfg : BusConfig) : BusState → Prop where
  | init (t : Nat) : Reachable cfg (initBus t)
  | step {s : BusState} {e : BusEvent} (h : Reachable cfg s)
      (hr : (busStep cfg s e).running = true) :
      Reachable cfg (busStep cfg s e).state

/-! ### `run_daemon_with_idle_timeout`

Straight-line structure around the loop: exclusive `UnixListener::bind`
(the claim), `DAEMON_READY` on stdout, the bus loop (which always returns
`Ok(())` — its only exit is the idle `break`), then abort of every session
still in the table, then `remove_file` of the socket path when it exists,
with `?` on the removal.  The loop's exit state and the filesystem responses
are inputs; the run is summarised by its outcome, its trace of externally
visible actions (in order), and whether the socket path exists afterwards. -/

/-- Outcome of the `UnixListener::bind` claim on the rendezvous path. -/
inductive BindResult where
  | ok
  | addrInUse
  | otherErr
deriving DecidableEq

/-- Filesystem environment of the shutdown phase: whether the socket path
exists when the loop exits, and whether `remove_file` would succeed. -/
structure ShutdownEnv where
  pathExists : Bool
  removeOk : Bool
deriving DecidableEq

/-- Externally visible actions of a daemon run, in order. -/
inductive DaemonAction where
  | bindAttempt
  | emitReady
  | abortTask (sid : Nat)
  | removeAttempt
deriving DecidableEq

/-- `Result` of `run_daemon_with_idle_timeout`. -/
inductive DaemonOutcome where
  | ok
  | bindErr (r : BindResult)
  | removeErr
deriving DecidableEq

/-- Summary of one daemon run. -/
structure DaemonRun where
  outcome : DaemonOutcome
  trace : List DaemonAction
  pathExistsAfter : Bool
deriving DecidableEq

/-- Loop-exit epilogue of `run_message_bus_with_idle_timeout`: `abort()` on
the handle of every session still in the table, in table order. -/
def busShutdownAborts (final : BusState) : List DaemonAction :=
  final.clients.map (fun c => .abortTask c.1)

/-- `run_daemon_with_idle_timeout` around a bus loop that exits in state
`final`: a failed bind returns the bind error at once (no cleanup, no
retry); otherwise the run is ready-signal, loop, aborts, and `remove_file?`
when the path exists — a removal failure becomes the result of the run. -/
def run_daemon_with_idle_timeout (bind : BindResult) (final : BusState)
    (env : ShutdownEnv) : DaemonRun :=
  match bind with
  | .addrInUse =>
      { outcome := .bindErr .addrInUse, trace := [.bindAttempt],
        pathExistsAfter := env.pathExists }
  | .otherErr =>
      { outcome := .bindErr .otherErr, trace := [.bindAttempt],
        pathExistsAfter := env.pathExists }
  | .ok =>
      let pre := [DaemonAction.bindAttempt, DaemonAction.emitReady] ++
        busShutdownAborts final
      if env.pathExists then
        if env.removeOk then
          { outcome := .ok, trace := pre ++ [.removeAttempt],
            pathExistsAfter := false }
        else
          { outcome := .removeErr, trace := pre ++ [.removeAttempt],
            pathExistsAfter := true }
      else
        { outcome := .ok, trace := pre, pathExistsAfter := false }

/-! ### `run_client`

The connect phase: one direct `UnixStream::connect`; on failure with
`auto_start`, spawn the detached daemon and run the retry loop (`attempts`
from 0, checked against 20 at the top of each iteration; each failed
attempt sleeps 100 ms and increments the counter). -/

/-- Outcome of one `UnixStream::connect` attempt. -/
inductive ConnectOutcome where
  | ok
  | err
deriving DecidableEq

/-- How the connect phase of `run_client` ends. -/
inductive ClientResult where
  | connected
  | connectFailed
  | spawnFailed
  | timedOut
deriving DecidableEq

/-- Summary of the connect phase: its result, the sleeps performed (in ms,
in order), and how many connect attempts were made after the spawn. -/
structure ClientRun where
  result : ClientResult
  sleepsMs : List Nat
  retryAttempts : Nat
deriving DecidableEq

/-- The auto-start retry loop of `run_client`: at 20 attempts, time out;
otherwise try `connect` (outcome of the k-th retry given by `outcome k`);
on failure sleep 100 ms and retry with the counter incremented. -/
def retryConnect (outcome : Nat → ConnectOutcome) (attempts : Nat) : ClientRun :=
  if attempts ≥ 20 then
    { result := .timedOut, sleepsMs := [], retryAttempts := 0 }
  else
    match outcome attempts with
    | .ok => { result := .connected, sleepsMs := [], retryAttempts := 1 }
    | .err =>
        let r := retryConnect outcome (attempts + 1)
        { r with sleepsMs := 100 :: r.sleepsMs, retryAttempts := r.retryAttempts + 1 }
termination_by 20 - attempts

/-- Connect phase of `run_client`: direct connect, else (with `auto_start`)
spawn the detached daemon and retry; else fail at once. -/
def run_client (autoStart : Bool) (initial : ConnectOutcome) (spawnOk : Bool)
    (outcome : Nat → ConnectOutcome) : ClientRun :=
  match initial with
  | .ok => { result := .connected, sleepsMs := [], retryAttempts := 0 }
  | .err =>
      if autoStart then
        if spawnOk then retryConnect outcome 0
        else { result := .spawnFailed, sleepsMs := [], retryAttempts := 0 }
      else { result := .connectFailed, sleepsMs := [], retryAttempts := 0 }

/-! ### Helper lemmas -/

/-- Every list splits as whitespace prefix, its trim, and whitespace suffix. -/
theorem rustTrimList_decomp (l : List Char) :
    ∃ p s, l = p ++ (rustTrimList l ++ s) ∧
      (∀ c ∈ p, isRustWhitespace c = true) ∧
      (∀ c ∈ s, isRustWhitespace c = true) := by
  refine ⟨l.takeWhile isRustWhitespace,
    ((l.dropWhile isRustWhitespace).reverse.takeWhile isRustWhitespace).reverse,
    ?_, ?_, ?_⟩
  · conv_lhs => rw [← List.takeWhile_append_dropWhile isRustWhitespace l]
    congr 1
    conv_lhs =>
      rw [← List.reverse_reverse (l.dropWhile isRustWhitespace),
        ← List.takeWhile_append_dropWhile isRustWhitespace
          (l.dropWhile isRustWhitespace).reverse,
        List.reverse_append]
    rfl
  · intro c hc
    exact List.mem_takeWhile_imp hc
  · intro c hc
    rw [List.mem_reverse] at hc
    exact List.mem_takeWhile_imp hc

/-- Trimming a list of whitespace characters yields the empty list. -/
theorem rustTrimList_eq_nil (l : List Char)
    (h : ∀ c ∈ l, isRustWhitespace c = true) : rustTrimList l = [] := by
  have h1 : l.dropWhile isRustWhitespace = [] :=
    List.dropWhile_eq_nil_iff.mpr (by simpa using h)
  unfold rustTrimList
  rw [h1]
  rfl

/-- A string is `""` exactly when its trim has an empty character list. -/
theorem rustTrim_eq_empty_iff (s : String) :
    rustTrim s = "" ↔ rustTrimList s.toList = [] := by
  constructor
  · intro h
    have := congrArg String.data h
    simpa [rustTrim] using this
  · intro h
    have h' : rustTrimList s.data = [] := h
    show (⟨rustTrimList s.data⟩ : String) = ""
    rw [h']

/-- No transition of the governing loop drops the loop's own receiver. -/
theorem busStep_loopRxAlive (cfg : BusConfig) (s : BusState) (e : BusEvent) :
    (busStep cfg s e).state.loopRxAlive = s.loopRxAlive := by
  cases e <;> simp only [busStep] <;> (repeat' split) <;> rfl

/-- In every reachable live state the loop's `_rx` receiver is alive. -/
theorem reachable_loopRxAlive {cfg : BusConfig} {s : BusState}
    (h : Reachable cfg s) : s.loopRxAlive = true := by
  induction h with
  | init t => rfl
  | step h hr ih => rw [busStep_loopRxAlive]; exact ih

/-- When all 20 remaining retry attempts fail, the loop sleeps 100 ms after
each and times out. -/
theorem retryConnect_timeout (outcome : Nat → ConnectOutcome) :
    ∀ n attempts, attempts + n = 20 →
      (∀ k, attempts ≤ k → k < 20 → outcome k = .err) →
      retryConnect outcome attempts =
        { result := .timedOut, sleepsMs := List.replicate n 100, retryAttempts := n } := by
  intro n
  induction n with
  | zero =>
      intro attempts h20 _
      rw [retryConnect]
      simp [show attempts ≥ 20 by omega]
  | succ n ih =>
      intro attempts h20 herr
      rw [retryConnect]
      rw [if_neg (by omega)]
      rw [herr attempts (Nat.le_refl _) (by omega)]
      rw [ih (attempts + 1) (by omega) (fun k hk1 hk2 => herr k (by omega) hk2)]
      simp [List.replicate_succ]

/-- A retry attempt that succeeds within the budget connects. -/
theorem retryConnect_connected (outcome : Nat → ConnectOutcome) :
    ∀ d k attempts, k - attempts = d → attempts ≤ k → k < 20 →
      (∀ j, attempts ≤ j → j < k → outcome j = .err) → outcome k = .ok →
      (retryConnect outcome attempts).result = .connected := by
  intro d
  induction d with
  | zero =>
      intro k attempts hd hle _hk hj hok
      have hk : attempts = k := by omega
      subst hk
      rw [retryConnect]
      rw [if_neg (by omega), hok]
  | succ n ih =>
      intro k attempts hd hle hk hj hok
      rw [retryConnect]
      rw [if_neg (by omega)]
      rw [hj attempts (Nat.le_refl _) (by omega)]
      simp only
      rw [ih k (attempts + 1) (by omega) (by omega) hk
        (fun j hj1 hj2 => hj j (by omega) hj2) hok]

/-! ### Claim theorems -/

/-- C1, counterexample: the line `" "` is non-empty, yet the inbound arm
publishes nothing for it (the trimmed message is empty), refuting
"whenever the line is non-empty, publishes it to the broadcast hub". -/
theorem C1_counterexample :
    (" " : String) ≠ "" ∧
    (handle_client_inbound (.line " ")).1 = ClientAction.noAction ∧
    ClientAction.noAction ≠ ClientAction.publishMsg " " := by
  decide

/-- C1, amended: the inbound arm of the session handler reads one line at a
time; whenever the line is non-empty after trimming whitespace it publishes
the trimmed line to the hub, and a line that trims to empty publishes
nothing; on end-of-stream the session terminates, and on a read error the
session terminates. -/
theorem C1_inbound_behaviour :
    handle_client_inbound .eof = (.noAction, .stop) ∧
    handle_client_inbound .ioErr = (.noAction, .stop) ∧
    ∀ l : String,
      (rustTrim l ≠ "" →
        handle_client_inbound (.line l) = (.publishMsg (rustTrim l), .cont)) ∧
      (rustTrim l = "" →
        handle_client_inbound (.line l) = (.noAction, .cont)) := by
  refine ⟨rfl, rfl, fun l => ⟨fun h => ?_, fun h => ?_⟩⟩
  · simp [handle_client_inbound, h]
  · simp [handle_client_inbound, h]

/-- C1, witness: the amended behaviour at the concrete lines `" hi \n"`
(published as `"hi"`) and `" \n"` (dropped). -/
theorem C1_inbound_witness :
    rustTrim " hi \n" ≠ "" ∧
    handle_client_inbound (.line " hi \n") = (.publishMsg (rustTrim " hi \n"), .cont) ∧
    rustTrim " \n" = "" ∧
    handle_client_inbound (.line " \n") = (.noAction, .cont) :=
  ⟨by decide, (C1_inbound_behaviour.2.2 " hi \n").1 (by decide),
   by decide, (C1_inbound_behaviour.2.2 " \n").2 (by decide)⟩

/-- C10: every message the inbound arm broadcasts is the line stripped of
leading and trailing whitespace (the line splits as whitespace, message,
whitespace), a broadcast message is never empty, and a line consisting only
of whitespace characters is dropped without a broadcast. -/
theorem C10_lines_trimmed :
    (∀ l msg : String,
      (handle_client_inbound (.line l)).1 = ClientAction.publishMsg msg →
      msg = rustTrim l ∧ msg ≠ "" ∧
      ∃ p s, l.toList = p ++ (msg.toList ++ s) ∧
        (∀ c ∈ p, isRustWhitespace c = true) ∧
        (∀ c ∈ s, isRustWhitespace c = true)) ∧
    (∀ l : String, (∀ c ∈ l.toList, isRustWhitespace c = true) →
      (handle_client_inbound (.line l)).1 = ClientAction.noAction) := by
  constructor
  · intro l msg hpub
    by_cases h : rustTrim l = ""
    · simp [handle_client_inbound, h] at hpub
    · have hmsg : msg = rustTrim l := by
        simp [handle_client_inbound, h] at hpub
        exact hpub.symm
      subst hmsg
      refine ⟨rfl, h, ?_⟩
      have hlist : (rustTrim l).toList = rustTrimList l.toList := rfl
      rw [hlist]
      exact rustTrimList_decomp l.toList
  · intro l hws
    have h : rustTrim l = "" :=
      (rustTrim_eq_empty_iff l).mpr (rustTrimList_eq_nil l.toList hws)
    simp [handle_client_inbound, h]

/-- C10, witness: the line `" hi\t"` is broadcast as its trim, splitting
into whitespace, `"hi"`, whitespace; the whitespace-only line `" \n"` is
dropped. -/
theorem C10_lines_trimmed_witness :
    ("hi" = rustTrim " hi\t" ∧ "hi" ≠ "" ∧
      ∃ p s, (" hi\t").toList = p ++ (("hi" : String).toList ++ s) ∧
        (∀ c ∈ p, isRustWhitespace c = true) ∧
        (∀ c ∈ s, isRustWhitespace c = true)) ∧
    (handle_client_inbound (.line " \n")).1 = ClientAction.noAction :=
  ⟨C10_lines_trimmed.1 " hi\t" "hi" (by decide),
   C10_lines_trimmed.2 " \n" (by decide)⟩

/-- C2: in every state of the daemon reachable while the governing loop is
live, a session handler's `tx.send` cannot return an error: the loop itself
holds the `_rx` receiver for the channel's whole lifetime, so the receiver
count is never zero and the error branch after `tx.send` is unreachable. -/
theorem C2_send_never_fails (cfg : BusConfig) (s : BusState)
    (h : Reachable cfg s) (sid : Nat) (m : String) :
    (busStep cfg s (.publish sid m)).sendErr = false := by
  have hrx := reachable_loopRxAlive h
  have hrc : receiverCount s ≠ 0 := by
    simp [receiverCount, hrx]
  simp only [busStep, if_neg hrc]
  split <;> rfl

/-- C2, witness: a publish in the loop's initial state reports no send
error. -/
theorem C2_send_never_fails_witness :
    (busStep ⟨30⟩ (initBus 0) (.publish 0 "hello")).sendErr = false :=
  C2_send_never_fails ⟨30⟩ (initBus 0) (Reachable.init 0) 0 "hello"

/-- C3: at every idle-check tick whose post-prune session table is nonempty
the idle clock is set to the tick's instant, and no transition that leaves
the session table empty changes the idle clock (in particular, a tick taken
with no sessions, or any step of an empty table, never resets it; the only
other resetting transition, a successful accept, installs its new session
in the same step, so it is not taken at session count zero). -/
theorem C3_idle_clock_invariant (cfg : BusConfig) (s : BusState) :
    (∀ now : Nat, (pruneClients s.clients).isEmpty = false →
      (busStep cfg s (.tick now)).state.lastActivity = now) ∧
    (∀ e : BusEvent, sessionCount (busStep cfg s e).state = 0 →
      (busStep cfg s e).state.lastActivity = s.lastActivity) := by
  constructor
  · intro now h
    simp [busStep, h]
  · intro e
    cases e with
    | accept now =>
        intro h
        simp [busStep, sessionCount] at h
    | acceptErr => intro _; rfl
    | tick now =>
        intro h
        simp only [busStep]
        split
        · split <;> rfl
        · next hne =>
            exfalso
            simp only [busStep] at h
            rw [if_neg hne] at h
            simp [sessionCount] at h
            simp [h] at hne
    | finishTask sid => intro _; rfl
    | publish sid m =>
        intro _
        simp only [busStep]
        split
        · split <;> rfl
        · rfl

/-- C3, witness: with one live session, a tick at instant 9 resets the clock
to 9; a publish on the empty table leaves the clock at its initial value. -/
theorem C3_idle_clock_witness :
    (pruneClients (busStep ⟨5⟩ (initBus 0) (.accept 3)).state.clients).isEmpty = false ∧
    (busStep ⟨5⟩ (busStep ⟨5⟩ (initBus 0) (.accept 3)).state (.tick 9)).state.lastActivity = 9 ∧
    sessionCount (busStep ⟨5⟩ (initBus 0) (.publish 0 "x")).state = 0 ∧
    (busStep ⟨5⟩ (initBus 0) (.publish 0 "x")).state.lastActivity = (initBus 0).lastActivity :=
  ⟨by decide,
   (C3_idle_clock_invariant ⟨5⟩ (busStep ⟨5⟩ (initBus 0) (.accept 3)).state).1 9 (by decide),
   by decide,
   (C3_idle_clock_invariant ⟨5⟩ (initBus 0)).2 (.publish 0 "x") (by decide)⟩

/-- C9: a session's own broadcasts come back to it.  A subscribed session's
publish delivers the message to every subscriber's queue including the
publisher's own, where it becomes the most recent pending message; and the
outbound arm writes every received message (plus newline) with no
filtering by sender.  (A session is subscribed from its accept transition
on, hence before any of its publishes.) -/
theorem C9_self_delivery (cfg : BusConfig) (s : BusState) (sid : Nat)
    (q : List String) (m : String)
    (hsub : s.subs.find? (fun p => p.1 == sid) = some (sid, q))
    (hrx : s.loopRxAlive = true) :
    queueOf (busStep cfg s (.publish sid m)).state sid = some (pushMsg q m) ∧
    (pushMsg q m).getLast? = some m ∧
    (∀ (m' : String) (w f : WriteResult),
      (handle_client_outbound (.msg m') w f).1 = ClientAction.writeOut (m' ++ "\n")) := by
  have hmem : (sid, q) ∈ s.subs := List.mem_of_find?_eq_some hsub
  have hany : s.subs.any (fun p => p.1 == sid) = true :=
    List.any_eq_true.mpr ⟨(sid, q), hmem, by simp⟩
  have hrc : ¬ receiverCount s = 0 := by
    simp [receiverCount, hrx]
  refine ⟨?_, ?_, fun m' w f => rfl⟩
  · simp only [busStep, hany, if_pos, if_neg hrc]
    simp only [queueOf]
    rw [show (s.subs.map (fun p => (p.1, pushMsg p.2 m))).find? (fun p => p.1 == sid) =
      ((s.subs.find? (fun p => p.1 == sid)).map (fun p => (p.1, pushMsg p.2 m))) from
      List.find?_map (fun p => (p.1, pushMsg p.2 m)) s.subs]
    rw [hsub]
    rfl
  · exact List.getLast?_concat _

/-- C9, witness: after an accept, the accepted session 0 publishes `"ping"`
and finds it as the most recent message of its own queue. -/
theorem C9_self_delivery_witness :
    queueOf (busStep ⟨5⟩ (busStep ⟨5⟩ (initBus 0) (.accept 2)).state
      (.publish 0 "ping")).state 0 = some (pushMsg [] "ping") ∧
    (pushMsg [] "ping").getLast? = some "ping" ∧
    (∀ (m' : String) (w f : WriteResult),
      (handle_client_outbound (.msg m') w f).1 = ClientAction.writeOut (m' ++ "\n")) :=
  C9_self_delivery ⟨5⟩ (busStep ⟨5⟩ (initBus 0) (.accept 2)).state 0 [] "ping"
    (by decide) (by decide)

/-- C4, counterexample: two daemon configurations that differ in the only
configurable value of the message-bus loop still share the same idle-check
tick period — the source constant 5 — so the tick period is not an explicit
configuration value and cannot be configured to any other value. -/
theorem C4_counterexample :
    BusConfig.mk 2 ≠ BusConfig.mk 3600 ∧
    busTickPeriodSecs ⟨2⟩ = 5 ∧ busTickPeriodSecs ⟨3600⟩ = 5 := by
  decide

/-- C4, amended: the idle timeout is an explicit configuration value of the
daemon loop — the tick's shutdown decision compares the elapsed idle time
against exactly `cfg.idleTimeoutSecs` — while the idle-check tick period is
the source constant 5 seconds for every configuration. -/
theorem C4_timeout_configured_tick_constant (cfg : BusConfig) (s : BusState)
    (now : Nat) :
    busTickPeriodSecs cfg = 5 ∧
    ((busStep cfg s (.tick now)).running = false ↔
      ((pruneClients s.clients).isEmpty = true ∧
        cfg.idleTimeoutSecs ≤ now - s.lastActivity)) := by
  refine ⟨rfl, ?_⟩
  by_cases h1 : (pruneClients s.clients).isEmpty = true <;>
    by_cases h2 : cfg.idleTimeoutSecs ≤ now - s.lastActivity <;>
      simp [busStep, h1, h2]

/-- C5, counterexample: with the socket path present and its removal
failing, the daemon run's outcome is the removal error, not success — the
error does become the result of the daemon run. -/
theorem C5_counterexample :
    (run_daemon_with_idle_timeout .ok (initBus 0) ⟨true, false⟩).outcome =
      DaemonOutcome.removeErr ∧
    DaemonOutcome.removeErr ≠ DaemonOutcome.ok := by
  decide

/-- C5, amended: if removing the rendezvous socket path fails during clean
shutdown, the removal is attempted after the loop but its error is
propagated as the result of the daemon run (the `?` on `remove_file`), so
the shutdown operation does not complete successfully. -/
theorem C5_remove_failure_fatal (final : BusState) (env : ShutdownEnv)
    (hp : env.pathExists = true) (hr : env.removeOk = false) :
    (run_daemon_with_idle_timeout .ok final env).outcome = DaemonOutcome.removeErr ∧
    DaemonAction.removeAttempt ∈ (run_daemon_with_idle_timeout .ok final env).trace := by
  constructor <;> simp [run_daemon_with_idle_timeout, hp, hr]

/-- C5, witness: the amended behaviour at a concrete failing removal. -/
theorem C5_remove_failure_witness :
    (run_daemon_with_idle_timeout .ok (initBus 0) ⟨true, false⟩).outcome =
      DaemonOutcome.removeErr ∧
    DaemonAction.removeAttempt ∈
      (run_daemon_with_idle_timeout .ok (initBus 0) ⟨true, false⟩).trace :=
  C5_remove_failure_fatal (initBus 0) ⟨true, false⟩ rfl rfl

/-- C6: when the direct connection fails and auto-start is off, the client
fails at once with a connect error, performing no retries and no sleeps;
with auto-start, after spawning the daemon it retries on a fixed 100 ms
interval, and when all 20 attempts fail it stops with a timeout error
(20 attempts, one 100 ms sleep after each) instead of retrying forever;
an attempt succeeding within the budget connects. -/
theorem C6_connect_retry (outcome : Nat → ConnectOutcome) :
    (∀ spawnOk : Bool, run_client false .err spawnOk outcome =
      { result := .connectFailed, sleepsMs := [], retryAttempts := 0 }) ∧
    ((∀ k, k < 20 → outcome k = .err) → run_client true .err true outcome =
      { result := .timedOut, sleepsMs := List.replicate 20 100, retryAttempts := 20 }) ∧
    (∀ k, k < 20 → (∀ j, j < k → outcome j = .err) → outcome k = .ok →
      (run_client true .err true outcome).result = .connected) := by
  refine ⟨fun spawnOk => rfl, fun herr => ?_, fun k hk hj hok => ?_⟩
  · show retryConnect outcome 0 = _
    exact retryConnect_timeout outcome 20 0 rfl (fun k _ hk => herr k hk)
  · show (retryConnect outcome 0).result = _
    exact retryConnect_connected outcome k k 0 rfl (Nat.zero_le _) hk
      (fun j _ hjk => hj j hjk) hok

/-- C6, witness: with every attempt failing the client times out after 20
attempts and 20 sleeps of 100 ms; without auto-start it fails at once; with
the fourth retry succeeding it connects. -/
theorem C6_connect_retry_witness :
    run_client false .err true (fun _ => .err) =
      { result := .connectFailed, sleepsMs := [], retryAttempts := 0 } ∧
    run_client true .err true (fun _ => .err) =
      { result := .timedOut, sleepsMs := List.replicate 20 100, retryAttempts := 20 } ∧
    (run_client true .err true (fun k => if k = 3 then .ok else .err)).result =
      .connected :=
  ⟨(C6_connect_retry (fun _ => .err)).1 true,
   (C6_connect_retry (fun _ => .err)).2.1 (fun _ _ => rfl),
   (C6_connect_retry (fun k => if k = 3 then .ok else .err)).2.2 3 (by decide)
     (fun j hj => if_neg (by omega)) (by decide)⟩

/-- C7: when the exclusive bind of the rendezvous path finds the address in
use, the claim returns the conflict error to the caller after the one bind
attempt — no blocking, queueing or retrying — the daemon run terminates with
that error, and no removal of the existing path is performed (the path's
existence is untouched). -/
theorem C7_claim_conflict (final : BusState) (env : ShutdownEnv) :
    (run_daemon_with_idle_timeout .addrInUse final env).outcome =
      DaemonOutcome.bindErr .addrInUse ∧
    (run_daemon_with_idle_timeout .addrInUse final env).trace =
      [DaemonAction.bindAttempt] ∧
    DaemonAction.removeAttempt ∉ (run_daemon_with_idle_timeout .addrInUse final env).trace ∧
    (run_daemon_with_idle_timeout .addrInUse final env).pathExistsAfter =
      env.pathExists := by
  refine ⟨rfl, rfl, ?_, rfl⟩
  simp [run_daemon_with_idle_timeout]

/-- C8: on exit of the daemon loop every session task still in the session
table is aborted, the removal of the socket path is the run's final action
(so it comes only after all aborts), and after a clean shutdown the
rendezvous path no longer exists. -/
theorem C8_shutdown_aborts_then_removes (final : BusState) (env : ShutdownEnv)
    (hp : env.pathExists = true) (hr : env.removeOk = true) :
    (∀ c ∈ final.clients, DaemonAction.abortTask c.1 ∈
      (run_daemon_with_idle_timeout .ok final env).trace.dropLast) ∧
    (run_daemon_with_idle_timeout .ok final env).trace.getLast? =
      some DaemonAction.removeAttempt ∧
    (run_daemon_with_idle_timeout .ok final env).outcome = DaemonOutcome.ok ∧
    (run_daemon_with_idle_timeout .ok final env).pathExistsAfter = false := by
  have htr : (run_daemon_with_idle_timeout .ok final env).trace =
      ([DaemonAction.bindAttempt, DaemonAction.emitReady] ++
        busShutdownAborts final) ++ [DaemonAction.removeAttempt] := by
    simp [run_daemon_with_idle_timeout, hp, hr]
  refine ⟨?_, ?_, ?_, ?_⟩
  · intro c hc
    rw [htr, List.dropLast_concat]
    exact List.mem_append_right _ (List.mem_map_of_mem _ hc)
  · rw [htr]
    exact List.getLast?_concat _
  · simp [run_daemon_with_idle_timeout, hp, hr]
  · simp [run_daemon_with_idle_timeout, hp, hr]

/-- C8, witness: a loop exiting with session 0 still in its table aborts it
before the final successful removal, after which the path is gone. -/
theorem C8_shutdown_witness :
    DaemonAction.abortTask 0 ∈
      (run_daemon_with_idle_timeout .ok (busStep ⟨5⟩ (initBus 0) (.accept 1)).state
        ⟨true, true⟩).trace.dropLast ∧
    (run_daemon_with_idle_timeout .ok (busStep ⟨5⟩ (initBus 0) (.accept 1)).state
        ⟨true, true⟩).trace.getLast? = some DaemonAction.removeAttempt ∧
    (run_daemon_with_idle_timeout .ok (busStep ⟨5⟩ (initBus 0) (.accept 1)).state
        ⟨true, true⟩).pathExistsAfter = false :=
  ⟨(C8_shutdown_aborts_then_removes (busStep ⟨5⟩ (initBus 0) (.accept 1)).state
      ⟨true, true⟩ rfl rfl).1 (0, false) (by decide),
   (C8_shutdown_aborts_then_removes (busStep ⟨5⟩ (initBus 0) (.accept 1)).state
      ⟨true, true⟩ rfl rfl).2.1,
   (C8_shutdown_aborts_then_removes (busStep ⟨5⟩ (initBus 0) (.accept 1)).state
      ⟨true, true⟩ rfl rfl).2.2.2⟩

end Daemon
